import Mathlib

/-!
Verification of the Arica Compliance desktop audit agent
(src/desktop-agent/arica_toucan_agent.py, with sentinel_agent.py as the
near-duplicate variant).

The Python agent probes the host through external commands and OS
interfaces; every probe sits inside a try/except block with a bounded
timeout.  The shallow embedding models each external probe outcome as an
explicit value (ProbeResult / Option), so the caught-exception branches of
the source become ordinary pattern-match branches, and every agent
function becomes a total Lean function over an explicit environment of
probe outcomes.  Detector result dictionaries become structures whose
fields are exactly the keys the source writes.
-/

/-- The OS family returned by platform.system().lower(): the agent branches
on "windows", "darwin", "linux"; anything else falls through every branch. -/
inductive Platform
  | windows
  | darwin
  | linux
  | other
deriving DecidableEq, Repr

/-- Outcome of one external command invocation (subprocess.check_output with
a timeout): either it returns decoded output, or it raises (tool missing,
non-zero exit status, timeout) and the exception is caught by the caller. -/
inductive ProbeResult
  | ok (output : String)
  | failure
deriving DecidableEq, Repr

/-- Checks that the first list is a leading segment of the second
(kernel-reducible replacement for the string startsWith test). -/
def subListAt : List Char → List Char → Bool
  | [], _ => true
  | _ :: _, [] => false
  | a :: as, b :: bs => a == b && subListAt as bs

/-- Whether pat occurs contiguously anywhere in the text. -/
def hasSubList (pat : List Char) : List Char → Bool
  | [] => subListAt pat []
  | c :: rest => subListAt pat (c :: rest) || hasSubList pat rest

/-- Python substring containment test (the `in` operator on str). -/
def strContains (s pat : String) : Bool :=
  hasSubList pat.toList s.toList

/-- Python str.startswith. -/
def pyStartsWith (s pat : String) : Bool :=
  subListAt pat.toList s.toList

/-- Python str.upper() (ASCII, as the agent output is). -/
def pyUpper (s : String) : String :=
  ⟨s.toList.map Char.toUpper⟩

/-- Python str.lower(). -/
def pyLower (s : String) : String :=
  ⟨s.toList.map Char.toLower⟩

/-- Python str.strip(): remove leading and trailing whitespace. -/
def pyStrip (s : String) : String :=
  ⟨((s.toList.dropWhile Char.isWhitespace).reverse.dropWhile Char.isWhitespace).reverse⟩

/-- Python slicing s[:n]. -/
def pyTake (s : String) (n : Nat) : String :=
  ⟨s.toList.take n⟩

/-- Splits a character list at every character satisfying p, keeping
empty pieces, like Python str.split(sep) for one-character separators. -/
def splitOnPred (p : Char → Bool) : List Char → List (List Char)
  | [] => [[]]
  | c :: rest =>
    let r := splitOnPred p rest
    if p c then [] :: r
    else
      match r with
      | [] => [[c]]
      | h :: t => (c :: h) :: t

/-- Python str.split(sep) for a one-character separator. -/
def pySplitChar (s : String) (sep : Char) : List String :=
  (splitOnPred (fun c => c == sep) s.toList).map (fun l => (⟨l⟩ : String))

/-- Python str.split() with no argument: split on whitespace runs,
dropping empty pieces. -/
def pySplitWs (s : String) : List String :=
  ((splitOnPred Char.isWhitespace s.toList).map (fun l => (⟨l⟩ : String))).filter
    (fun t => t != "")

/-- Reads a decimal digit run, failing on any non-digit. -/
def natOfDigits : List Char → Nat → Option Nat
  | [], acc => some acc
  | c :: rest, acc =>
    if c.isDigit then natOfDigits rest (acc * 10 + (c.toNat - 48)) else none

/-- Python int(str): optionally signed decimal digits after stripping
surrounding whitespace; anything else raises ValueError (modelled none). -/
def pyInt (s : String) : Option Int :=
  match (pyStrip s).toList with
  | [] => none
  | c :: rest =>
    if c == '-' then
      match rest with
      | [] => none
      | _ => (natOfDigits rest 0).map (fun n => -(n : Int))
    else if c == '+' then
      match rest with
      | [] => none
      | _ => (natOfDigits rest 0).map (fun n => (n : Int))
    else (natOfDigits (c :: rest) 0).map (fun n => (n : Int))

/-- The dict returned by check_firewall_status. -/
structure FirewallResult where
  firewallEnabled : Bool
  firewallStatus : String
deriving DecidableEq, Repr

/-- Probe environment for check_firewall_status: the outcome of each
external command it may run. -/
structure FirewallEnv where
  netshOut : ProbeResult
  socketfilterfwOut : ProbeResult
  ufwOut : ProbeResult
  iptablesOut : ProbeResult
deriving DecidableEq, Repr

/-- check_firewall_status (arica_toucan_agent.py lines 67-127, identical in
sentinel_agent.py): starts from {False, "Unknown"}, then branches per OS;
every probe failure is caught and degrades the status string. -/
def check_firewall_status (p : Platform) (env : FirewallEnv) : FirewallResult :=
  match p with
  | .windows =>
    match env.netshOut with
    | .ok out =>
      if strContains (pyUpper out) "ON" then ⟨true, "Windows Firewall Active"⟩
      else ⟨false, "Windows Firewall Disabled"⟩
    | .failure => ⟨false, "Unable to determine"⟩
  | .darwin =>
    match env.socketfilterfwOut with
    | .ok out =>
      if strContains (pyLower out) "enabled" then ⟨true, "macOS Firewall Enabled"⟩
      else ⟨false, "macOS Firewall Disabled"⟩
    | .failure => ⟨false, "Unable to determine"⟩
  | .linux =>
    match env.ufwOut with
    | .ok out =>
      if strContains (pyLower out) "active" then ⟨true, "UFW Firewall Active"⟩
      else ⟨false, "UFW Firewall Inactive"⟩
    | .failure =>
      match env.iptablesOut with
      | .ok _ => ⟨true, "iptables configured"⟩
      | .failure => ⟨false, "No firewall detected"⟩
  | .other => ⟨false, "Unknown"⟩

/-- The dict returned by check_antivirus_status (antivirusName is a key
only added on detection in arica_toucan_agent.py; None in sentinel). -/
structure AntivirusResult where
  antivirusInstalled : Bool
  antivirusName : Option String
  antivirusStatus : String
deriving DecidableEq, Repr

/-- Probe environment for check_antivirus_status: the Defender registry
read (none = key missing or read raising) and binary existence checks
(`which` succeeding) for the Linux candidate list. -/
structure AntivirusEnv where
  defenderDisabled : Option Bool
  which : String → Bool

/-- The ordered Linux antivirus candidate list av_tools. -/
def avTools : List (String × String) :=
  [("clamav", "ClamAV"), ("sophos", "Sophos"), ("crowdstrike", "CrowdStrike Falcon")]

/-- check_antivirus_status (arica_toucan_agent.py lines 130-187): Windows
reads the Defender disable flag, macOS unconditionally reports XProtect,
Linux short-circuits on the first candidate whose binary exists. -/
def check_antivirus_status (p : Platform) (env : AntivirusEnv) : AntivirusResult :=
  match p with
  | .windows =>
    match env.defenderDisabled with
    | some disabled =>
      if disabled then ⟨false, none, "Windows Defender disabled"⟩
      else ⟨true, some "Windows Defender", "Real-time protection enabled"⟩
    | none => ⟨false, none, "Unable to determine antivirus status"⟩
  | .darwin => ⟨true, some "XProtect (Built-in)", "macOS built-in protection active"⟩
  | .linux =>
    match avTools.find? (fun tn => env.which tn.1) with
    | some tn => ⟨true, some tn.2, tn.2 ++ " installed"⟩
    | none => ⟨false, none, "No antivirus detected"⟩
  | .other => ⟨false, none, "Not detected"⟩

/-- The dict returned by check_disk_encryption: arica_toucan_agent.py
starts from the single key diskEncryptionEnabled=False and adds the
method key only on detection (sentinel initialises the method key to
None, the same Option none). -/
structure DiskEncryptionResult where
  diskEncryptionEnabled : Bool
  diskEncryptionMethod : Option String
deriving DecidableEq, Repr

/-- Probe environment for check_disk_encryption. -/
structure DiskEnv where
  manageBde : ProbeResult
  fdesetup : ProbeResult
  lsblk : ProbeResult
deriving DecidableEq, Repr

/-- check_disk_encryption (arica_toucan_agent.py lines 190-237, sentinel
lines 176-224): every probe failure branch is `except Exception: pass`,
leaving the initial {diskEncryptionEnabled: False} untouched. -/
def check_disk_encryption (p : Platform) (env : DiskEnv) : DiskEncryptionResult :=
  match p with
  | .windows =>
    match env.manageBde with
    | .ok out =>
      if strContains out "Protection On" || strContains out "Percentage Encrypted" then
        ⟨true, some "BitLocker"⟩
      else ⟨false, none⟩
    | .failure => ⟨false, none⟩
  | .darwin =>
    match env.fdesetup with
    | .ok out =>
      if strContains out "FileVault is On" then ⟨true, some "FileVault"⟩
      else ⟨false, none⟩
    | .failure => ⟨false, none⟩
  | .linux =>
    match env.lsblk with
    | .ok out =>
      if strContains out "crypt" then ⟨true, some "LUKS/dm-crypt"⟩
      else ⟨false, none⟩
    | .failure => ⟨false, none⟩
  | .other => ⟨false, none⟩

/-- A JSON-serialisable dict value appearing in a detector result. -/
inductive JVal
  | b (v : Bool)
  | s (v : String)
deriving DecidableEq, Repr

/-- The key/value pairs of the dict check_disk_encryption returns in
arica_toucan_agent.py: the method key is present only when set. -/
def DiskEncryptionResult.fields : DiskEncryptionResult → List (String × JVal)
  | ⟨e, some m⟩ => [("diskEncryptionEnabled", JVal.b e), ("diskEncryptionMethod", JVal.s m)]
  | ⟨e, none⟩ => [("diskEncryptionEnabled", JVal.b e)]

/-- One entry of the userAccounts list.  Entries parsed from platform
listings carry no lastLogin key (arica) or None (sentinel); only the
current-user fallback entry sets it. -/
structure UserAccount where
  username : String
  isAdmin : Bool
  lastLogin : Option String
deriving DecidableEq, Repr

/-- The fixed denylist WINDOWS_SYSTEM_ACCOUNTS of well-known system and
service account names, compared case-insensitively. -/
def WINDOWS_SYSTEM_ACCOUNTS : List String :=
  ["administrator", "defaultaccount", "guest", "wdagutilityaccount",
   "defaultuser0", "system", "local service", "network service",
   "krbtgt", "defaultapppool", "aspnet", "iusr", "iwam",
   "homegroup", "mssql", "mysql", "postgres", "oracle",
   "sshd", "nt authority", "everyone", "authenticated users",
   "users", "guests", "power users", "backup operators",
   "replicator", "remote desktop users", "network configuration operators",
   "performance monitor users", "performance log users", "distributed com users",
   "iis_iusrs", "cryptographic operators", "event log readers",
   "certificate service dcom access", "rdp-tcp", "console", "helpassistant"]

/-- The shells excluded on darwin/linux. -/
def nonInteractiveShells : List String :=
  ["/usr/sbin/nologin", "/bin/false", "/sbin/nologin"]

/-- Parses the member block of `net localgroup Administrators` output: a line
containing a dash separator turns membership collection on; thereafter every
non-empty stripped line not starting with "The command" is a member
(lower-cased).  Mirrors the admin_list loop of arica_toucan_agent.py. -/
def parseAdminBlock : List String → Bool → List String → List String
  | [], _, acc => acc
  | l :: rest, inMembers, acc =>
    let s := pyStrip l
    if strContains s "----" then parseAdminBlock rest true acc
    else if inMembers && s != "" && !(pyStartsWith s "The command") then
      parseAdminBlock rest inMembers (acc ++ [pyLower s])
    else parseAdminBlock rest inMembers acc

/-- One line of the WMIC user listing (header already dropped): whitespace
tokenised; column 1 is the name, column 2 the Disabled flag.  An account is
kept when the name is non-empty, not denylisted and not disabled. -/
def wmicParse : List String → List String → List UserAccount → List UserAccount
  | [], _, acc => acc
  | line :: rest, admins, acc =>
    let parts := pySplitWs (pyStrip line)
    match parts with
    | [] => wmicParse rest admins acc
    | u :: more =>
      let username := pyStrip u
      let isDisabled := decide (more ≠ []) && (pyUpper (more.getD 0 "") == "TRUE")
      if username != "" && !(WINDOWS_SYSTEM_ACCOUNTS.contains (pyLower username)) &&
          !isDisabled then
        wmicParse rest admins (acc ++ [⟨username, admins.contains (pyLower username), none⟩])
      else wmicParse rest admins acc

/-- The looser `net user` fallback parse: skip banner/separator lines, then
every whitespace token on a kept line is a candidate username. -/
def netUserParse : List String → List String → List UserAccount → List UserAccount
  | [], _, acc => acc
  | line :: rest, admins, acc =>
    if pyStrip line != "" && !(pyStartsWith line "-") && !(pyStartsWith line "User") &&
        !(pyStartsWith line "The") then
      netUserParse rest admins (acc ++ (pySplitWs line).filterMap (fun u0 =>
        let u := pyStrip u0
        if u != "" && !(WINDOWS_SYSTEM_ACCOUNTS.contains (pyLower u)) then
          some ⟨u, admins.contains (pyLower u), none⟩
        else none))
    else netUserParse rest admins acc

/-- Classification of one /etc/passwd line in the darwin/linux branch:
none means int(parts[2]) raises (the outer except then keeps the users
accumulated so far and stops); some none means the line is skipped; some
(some u) means the account is appended. -/
def passwdStep (line : String) : Option (Option UserAccount) :=
  let parts := pySplitChar (pyStrip line) ':'
  if parts.length ≥ 7 then
    match pyInt (parts.getD 2 "") with
    | none => none
    | some uid =>
      if uid ≥ 1000 ∨ uid = 0 then
        if !(nonInteractiveShells.contains (parts.getD 6 "")) then
          some (some ⟨parts.getD 0 "", uid == 0 || uid == 501 || uid == 1000, none⟩)
        else some none
      else some none
  else some none

/-- The /etc/passwd reading loop: processes lines in order, stopping (and
keeping the accumulated list) at the first line whose uid field fails int(),
because that exception aborts the whole try block. -/
def parsePasswdLines : List String → List UserAccount → List UserAccount
  | [], users => users
  | line :: rest, users =>
    match passwdStep line with
    | none => users
    | some none => parsePasswdLines rest users
    | some (some u) => parsePasswdLines rest (users ++ [u])

/-- Probe environment for get_user_accounts: outcomes of the two Windows
listing commands and the admin-group query, the /etc/passwd content (none =
open raises), plus getpass.getuser() and datetime.now().isoformat() for the
fallback entry. -/
structure UsersEnv where
  wmicOut : ProbeResult
  netLocalgroupOut : ProbeResult
  netUserOut : ProbeResult
  passwd : Option String
  currentUser : String
  nowIso : String
deriving DecidableEq, Repr

/-- The platform-specific listing of get_user_accounts before the fallback
(arica_toucan_agent.py lines 259-362). -/
def collect_users (p : Platform) (env : UsersEnv) : List UserAccount :=
  match p with
  | .windows =>
    match env.wmicOut with
    | .ok out =>
      let admins :=
        match env.netLocalgroupOut with
        | .ok aout => parseAdminBlock (pySplitChar aout '\n') false []
        | .failure => []
      wmicParse ((pySplitChar (pyStrip out) '\n').drop 1) admins []
    | .failure =>
      match env.netUserOut with
      | .ok out2 =>
        let admins :=
          match env.netLocalgroupOut with
          | .ok aout => parseAdminBlock (pySplitChar aout '\n') false []
          | .failure => []
        netUserParse (pySplitChar out2 '\n') admins []
      | .failure => []
  | .darwin | .linux =>
    match env.passwd with
    | some content => parsePasswdLines (pySplitChar content '\n') []
    | none => []
  | .other => []

/-- get_user_accounts (arica_toucan_agent.py lines 240-372, sentinel lines
227-292): platform-specific listing, then the current-user fallback when
nothing survived. -/
def get_user_accounts (p : Platform) (env : UsersEnv) : List UserAccount :=
  let users := collect_users p env
  if users = [] then [⟨env.currentUser, true, some env.nowIso⟩] else users

/-- One address reported by psutil.net_if_addrs(): its family (AF_INET or
not) and its address string. -/
structure IfaceAddr where
  isInet : Bool
  address : String
deriving DecidableEq, Repr

/-- The dict returned by get_network_info. -/
structure NetworkInfo where
  hostname : String
  ipAddresses : List String
deriving DecidableEq, Repr

/-- The psutil interface loop of get_network_info: append each AF_INET
address not already present (exact string comparison). -/
def appendIfaceAddrs : List IfaceAddr → List String → List String
  | [], acc => acc
  | a :: rest, acc =>
    if a.isInet ∧ a.address ∉ acc then appendIfaceAddrs rest (acc ++ [a.address])
    else appendIfaceAddrs rest acc

/-- get_network_info (arica_toucan_agent.py lines 375-398, identical in
sentinel): the hostname-resolved address first when resolution succeeds
(resolved = none models the caught gethostbyname exception), then interface
addresses when psutil is importable; ifaceAddrs are the addresses the loop
visits before any enumeration exception (caught, keeping the list built so
far). -/
def get_network_info (hostname : String) (resolved : Option String)
    (psutilAvailable : Bool) (ifaceAddrs : List IfaceAddr) : NetworkInfo :=
  let ips := match resolved with | some ip => [ip] | none => []
  let ips := if psutilAvailable then appendIfaceAddrs ifaceAddrs ips else ips
  ⟨hostname, ips⟩

/-- Outcome of one POST to /api/audit/create as create_audit observes it:
a connection-level failure (requests.exceptions.ConnectionError), a non-2xx
status (raise_for_status), a 2xx body that response.json() cannot parse, or
a parsed JSON body whose auditId field is data.get("auditId"). -/
inductive CreateOutcome
  | connError
  | httpErr
  | malformedBody
  | okBody (auditId : Option String)
deriving DecidableEq, Repr

/-- What one run of create_audit did: how many POSTs it issued, the
time.sleep durations in seconds in order, and its return value. -/
structure CreateTrace where
  requests : Nat
  waits : List Nat
  result : Option String
deriving DecidableEq, Repr

/-- The retry loop of create_audit, with r iterations left and the given
next attempt index: a connection error waits 2^attempt seconds and retries
unless this was the last attempt; any other exception returns None at once
(arica_toucan_agent.py lines 466-491). -/
def create_audit_go (respond : Nat → CreateOutcome) (attempt : Nat) : Nat → CreateTrace
  | 0 => ⟨0, [], none⟩
  | r + 1 =>
    match respond attempt with
    | .okBody aid => ⟨1, [], aid⟩
    | .httpErr => ⟨1, [], none⟩
    | .malformedBody => ⟨1, [], none⟩
    | .connError =>
      if r = 0 then ⟨1, [], none⟩
      else
        let rest := create_audit_go respond (attempt + 1) r
        ⟨rest.requests + 1, 2 ^ attempt :: rest.waits, rest.result⟩

/-- create_audit(server_url, max_retries): the loop starts at attempt 0 with
max_retries iterations available (max_retries defaults to 3 at the only call
site). -/
def create_audit (respond : Nat → CreateOutcome) (maxRetries : Nat) : CreateTrace :=
  create_audit_go respond 0 maxRetries

/-- Outcome of the single POST to /api/audit/upload-system-data: 2xx, an
HTTPError whose response body either parses as JSON (carried as its dump) or
not (carried as raw text), a connection error, or any other exception. -/
inductive UploadOutcome
  | okResp
  | httpErr (jsonBody : Option String) (text : String)
  | connError
  | otherError
deriving DecidableEq, Repr

/-- What one run of upload_system_data did: the auditId field of each POST
payload it issued, its return value, and the server response body it printed
for the operator on an HTTP error (JSON dump if the body parsed, else the
first 500 characters of raw text). -/
structure UploadResult where
  requests : List String
  success : Bool
  surfaced : Option String
deriving DecidableEq, Repr

/-- upload_system_data (arica_toucan_agent.py lines 494-518): one POST with
payload {auditId, systemData}; never retried. -/
def upload_system_data (auditId : String) (o : UploadOutcome) : UploadResult :=
  match o with
  | .okResp => ⟨[auditId], true, none⟩
  | .httpErr jsonBody text =>
    ⟨[auditId], false, some (match jsonBody with | some j => j | none => pyTake text 500)⟩
  | .connError => ⟨[auditId], false, none⟩
  | .otherError => ⟨[auditId], false, none⟩

/-- Server-side environment of one run of run_system_scan: whether DNS
resolution of the server hostname succeeds (test_connectivity), the create
endpoint response per attempt, and the upload outcome. -/
structure ScanEnv where
  dnsOk : Bool
  createRespond : Nat → CreateOutcome
  uploadOutcome : UploadOutcome

/-- The transport-visible effects of one run of run_system_scan. -/
structure ScanTrace where
  dnsAttempts : Nat
  createRequests : Nat
  uploadPayloadAuditIds : List String
  result : Option String
deriving DecidableEq, Repr

/-- run_system_scan (arica_toucan_agent.py lines 938-984): dry run collects
and prints without any network step; otherwise test_connectivity resolves
DNS once (no retry; returning None on failure), create_audit runs with
max_retries 3, a falsy audit id (None or the empty string) aborts before
upload, and otherwise upload_system_data is called once with that id. -/
def run_system_scan (env : ScanEnv) (dryRun : Bool) : ScanTrace :=
  if dryRun then ⟨0, 0, [], none⟩
  else if env.dnsOk then
    let ct := create_audit env.createRespond 3
    match ct.result with
    | none => ⟨1, ct.requests, [], none⟩
    | some aid =>
      if aid = "" then ⟨1, ct.requests, [], none⟩
      else
        let ur := upload_system_data aid env.uploadOutcome
        ⟨1, ct.requests, ur.requests, if ur.success then some aid else none⟩
  else ⟨1, 0, [], none⟩

/-- The agent --mode argument. -/
inductive Mode
  | full
  | system
  | questionnaire
deriving DecidableEq, Repr

/-- Environment of one invocation of main. -/
structure MainEnv where
  scanEnv : ScanEnv
  hasTkinter : Bool
  questionnaireOk : Bool
  hasAuditIdArg : Bool

/-- The process-visible effects of one invocation of main. -/
structure MainTrace where
  dnsAttempts : Nat
  createRequests : Nat
  uploadPayloadAuditIds : List String
  exitCode : Nat
deriving DecidableEq, Repr

/-- main (arica_toucan_agent.py lines 987-1129): dry run returns after
printing (process exit 0); questionnaire mode needs --audit-id and never
touches the create/upload endpoints; system and full modes run
run_system_scan and exit 1 when it returns None; full mode then runs the
GUI questionnaire when Tkinter is available. -/
def main_run (mode : Mode) (dryRun : Bool) (env : MainEnv) : MainTrace :=
  if dryRun then ⟨0, 0, [], 0⟩
  else
    match mode with
    | .questionnaire =>
      if !env.hasAuditIdArg then ⟨0, 0, [], 1⟩
      else ⟨0, 0, [], if env.questionnaireOk then 0 else 1⟩
    | .system =>
      let t := run_system_scan env.scanEnv false
      ⟨t.dnsAttempts, t.createRequests, t.uploadPayloadAuditIds,
        match t.result with | some _ => 0 | none => 1⟩
    | .full =>
      let t := run_system_scan env.scanEnv false
      match t.result with
      | none => ⟨t.dnsAttempts, t.createRequests, t.uploadPayloadAuditIds, 1⟩
      | some _ =>
        ⟨t.dnsAttempts, t.createRequests, t.uploadPayloadAuditIds,
          if env.hasTkinter then (if env.questionnaireOk then 0 else 1) else 0⟩

theorem waits_shift (attempt k : Nat) :
    (List.range (k + 1)).map (fun i => 2 ^ (attempt + i)) =
      2 ^ attempt :: (List.range k).map (fun i => 2 ^ (attempt + 1 + i)) := by
  rw [List.range_succ_eq_map, List.map_cons, List.map_map]
  rw [Nat.add_zero]
  refine congrArg (List.cons (2 ^ attempt)) ?_
  apply List.map_congr_left
  intro i _
  simp only [Function.comp_apply]
  congr 1
  omega

theorem create_go_all_conn (respond : Nat → CreateOutcome)
    (h : ∀ n, respond n = CreateOutcome.connError) :
    ∀ (r attempt : Nat), create_audit_go respond attempt r =
      ⟨r, (List.range (r - 1)).map (fun i => 2 ^ (attempt + i)), none⟩ := by
  intro r
  induction r with
  | zero => intro attempt; rfl
  | succ r ih =>
    intro attempt
    simp only [create_audit_go, h attempt]
    by_cases hr : r = 0
    · subst hr; rfl
    · rw [if_neg hr, ih (attempt + 1)]
      obtain ⟨s, rfl⟩ := Nat.exists_eq_succ_of_ne_zero hr
      simp only [Nat.succ_sub_one, Nat.add_sub_cancel]
      rw [waits_shift]

theorem create_go_abort (respond : Nat → CreateOutcome) :
    ∀ (k attempt r : Nat), k < r →
      (∀ j, j < k → respond (attempt + j) = CreateOutcome.connError) →
      (respond (attempt + k) = CreateOutcome.httpErr ∨
        respond (attempt + k) = CreateOutcome.malformedBody) →
      create_audit_go respond attempt r =
        ⟨k + 1, (List.range k).map (fun i => 2 ^ (attempt + i)), none⟩ := by
  intro k
  induction k with
  | zero =>
    intro attempt r hr _ habort
    obtain ⟨s, rfl⟩ := Nat.exists_eq_succ_of_ne_zero (Nat.pos_iff_ne_zero.mp hr)
    rw [Nat.add_zero] at habort
    rcases habort with h | h <;> simp [create_audit_go, h]
  | succ k ih =>
    intro attempt r hr hconn habort
    obtain ⟨s, rfl⟩ := Nat.exists_eq_succ_of_ne_zero (Nat.pos_iff_ne_zero.mp (Nat.lt_of_le_of_lt (Nat.zero_le _) hr))
    have hs : s ≠ 0 := by omega
    have h0 : respond attempt = CreateOutcome.connError := by
      have := hconn 0 (Nat.succ_pos k)
      rwa [Nat.add_zero] at this
    simp only [create_audit_go, h0, if_neg hs]
    rw [ih (attempt + 1) s (by omega)
      (fun j hj => by
        have := hconn (j + 1) (by omega)
        rwa [show attempt + (j + 1) = attempt + 1 + j by omega] at this)
      (by rwa [show attempt + 1 + k = attempt + (k + 1) by omega])]
    simp only [waits_shift]

/-- C1: when every attempt of create_audit hits a connection-level failure,
exactly maxRetries requests are issued with waits of 2^n seconds after
failed attempt n for n in 0..maxRetries-2 and the result is None; a
non-connection failure (HTTP error status or malformed JSON body) at
attempt k, after k connection failures, ends the run at once with k+1
requests issued, no further wait, and result None. -/
theorem createAudit_retry_behavior (respond : Nat → CreateOutcome) (m : Nat) :
    ((∀ n, respond n = CreateOutcome.connError) →
      create_audit respond m =
        ⟨m, (List.range (m - 1)).map (fun n => 2 ^ n), none⟩) ∧
    (∀ k, k < m → (∀ j, j < k → respond j = CreateOutcome.connError) →
      (respond k = CreateOutcome.httpErr ∨ respond k = CreateOutcome.malformedBody) →
      create_audit respond m =
        ⟨k + 1, (List.range k).map (fun n => 2 ^ n), none⟩) := by
  constructor
  · intro h
    rw [create_audit, create_go_all_conn respond h m 0]
    refine congrArg (fun w => CreateTrace.mk m w none) ?_
    apply List.map_congr_left
    intro i _
    rw [Nat.zero_add]
  · intro k hk hconn habort
    rw [create_audit, create_go_abort respond k 0 m hk
      (fun j hj => by simpa using hconn j hj) (by simpa using habort)]
    refine congrArg (fun w => CreateTrace.mk (k + 1) w none) ?_
    apply List.map_congr_left
    intro i _
    rw [Nat.zero_add]

/-- Witness for C1: sustained connection failure at maxRetries 3 issues 3
requests with waits 1s and 2s; a connection failure then an HTTP error stops
after 2 requests with the single 1s wait. -/
theorem createAudit_retry_behavior_witness :
    create_audit (fun _ => CreateOutcome.connError) 3 = ⟨3, [1, 2], none⟩ ∧
    create_audit (fun n => if n = 0 then CreateOutcome.connError else CreateOutcome.httpErr) 3 =
      ⟨2, [1], none⟩ := by
  constructor
  · have h := (createAudit_retry_behavior (fun _ => CreateOutcome.connError) 3).1
      (fun _ => rfl)
    rw [h]; decide
  · have h := (createAudit_retry_behavior
        (fun n => if n = 0 then CreateOutcome.connError else CreateOutcome.httpErr) 3).2 1
        (by omega)
        (fun j hj => by
          have hj0 : j = 0 := by omega
          subst hj0; rfl)
        (Or.inl rfl)
    rw [h]; decide

/-- C3: get_user_accounts never returns an empty sequence, and when the
platform-specific listing yields zero entries it returns exactly the single
currently-executing user, flagged admin, with the current time as lastLogin. -/
theorem userAccounts_nonempty_fallback (p : Platform) (env : UsersEnv) :
    get_user_accounts p env ≠ [] ∧
    (collect_users p env = [] →
      get_user_accounts p env = [⟨env.currentUser, true, some env.nowIso⟩]) := by
  unfold get_user_accounts
  by_cases h : collect_users p env = [] <;> simp [h]

/-- Witness for C3 on an environment where every listing probe fails. -/
theorem userAccounts_nonempty_fallback_witness :
    get_user_accounts Platform.other ⟨.failure, .failure, .failure, none, "me", "t0"⟩ ≠ [] ∧
    get_user_accounts Platform.other ⟨.failure, .failure, .failure, none, "me", "t0"⟩ =
      [⟨"me", true, some "t0"⟩] := by
  have h := userAccounts_nonempty_fallback Platform.other
    ⟨.failure, .failure, .failure, none, "me", "t0"⟩
  exact ⟨h.1, h.2 (by decide)⟩

/-- C4: upload_system_data issues exactly one POST whose payload carries the
given auditId, never retries, returns false on every failure kind, and on an
HTTP error surfaces the JSON response body or the first 500 characters of
raw text. -/
theorem upload_single_attempt (aid j t : String) :
    upload_system_data aid UploadOutcome.okResp = ⟨[aid], true, none⟩ ∧
    upload_system_data aid UploadOutcome.connError = ⟨[aid], false, none⟩ ∧
    upload_system_data aid UploadOutcome.otherError = ⟨[aid], false, none⟩ ∧
    upload_system_data aid (UploadOutcome.httpErr (some j) t) = ⟨[aid], false, some j⟩ ∧
    upload_system_data aid (UploadOutcome.httpErr none t) =
      ⟨[aid], false, some (pyTake t 500)⟩ :=
  ⟨rfl, rfl, rfl, rfl, rfl⟩

theorem create_audit_first_ok (respond : Nat → CreateOutcome) (aid : Option String)
    (h : respond 0 = CreateOutcome.okBody aid) (m : Nat) (hm : 0 < m) :
    create_audit respond m = ⟨1, [], aid⟩ := by
  obtain ⟨r, rfl⟩ := Nat.exists_eq_succ_of_ne_zero (Nat.pos_iff_ne_zero.mp hm)
  show create_audit_go respond 0 (r + 1) = _
  simp [create_audit_go, h]

theorem upload_requests_eq (aid : String) (o : UploadOutcome) :
    (upload_system_data aid o).requests = [aid] := by
  cases o <;> rfl

/-- C5: when the create endpoint answers 2xx with body auditId "abc-123",
the payload of the subsequent upload request carries exactly the string
"abc-123". -/
theorem auditId_passthrough (env : ScanEnv)
    (h : env.createRespond 0 = CreateOutcome.okBody (some "abc-123"))
    (hdns : env.dnsOk = true) :
    (run_system_scan env false).uploadPayloadAuditIds = ["abc-123"] := by
  have hct := create_audit_first_ok env.createRespond (some "abc-123") h 3 (by omega)
  simp [run_system_scan, hdns, hct, upload_requests_eq]

/-- Witness for C5. -/
theorem auditId_passthrough_witness :
    (run_system_scan
      ⟨true, fun _ => CreateOutcome.okBody (some "abc-123"), UploadOutcome.okResp⟩
      false).uploadPayloadAuditIds = ["abc-123"] :=
  auditId_passthrough
    ⟨true, fun _ => CreateOutcome.okBody (some "abc-123"), UploadOutcome.okResp⟩ rfl rfl

/-- C6: in any non-dry run that performs the connectivity check and whose
DNS resolution fails, the check is done exactly once, the process exits
with code 1, and no create or upload request is issued. -/
theorem dns_failure_terminal (mode : Mode) (dryRun : Bool) (env : MainEnv)
    (h1 : (main_run mode dryRun env).dnsAttempts ≠ 0)
    (h2 : env.scanEnv.dnsOk = false) :
    main_run mode dryRun env = ⟨1, 0, [], 1⟩ := by
  cases dryRun with
  | true => simp [main_run] at h1
  | false =>
    have hscan : run_system_scan env.scanEnv false = ⟨1, 0, [], none⟩ := by
      simp [run_system_scan, h2]
    cases mode with
    | questionnaire =>
      by_cases ha : env.hasAuditIdArg <;> simp [main_run, ha] at h1
    | system => simp [main_run, hscan]
    | full => simp [main_run, hscan]

/-- Witness for C6. -/
theorem dns_failure_terminal_witness :
    main_run Mode.system false
      ⟨⟨false, fun _ => CreateOutcome.connError, UploadOutcome.okResp⟩, true, true, true⟩ =
      ⟨1, 0, [], 1⟩ :=
  dns_failure_terminal Mode.system false
    ⟨⟨false, fun _ => CreateOutcome.connError, UploadOutcome.okResp⟩, true, true, true⟩
    (by decide) rfl

/-- C9: a 2xx create response whose JSON body lacks the auditId field, or
carries the empty identifier, makes the run abort with no upload request
and no audit identifier, in dry and non-dry runs alike. -/
theorem createAudit_requires_nonempty_id (env : ScanEnv) (dryRun : Bool)
    (h : env.createRespond 0 = CreateOutcome.okBody none ∨
      env.createRespond 0 = CreateOutcome.okBody (some "")) :
    (run_system_scan env dryRun).uploadPayloadAuditIds = [] ∧
    (run_system_scan env dryRun).result = none := by
  cases dryRun with
  | true => exact ⟨rfl, rfl⟩
  | false =>
    by_cases hd : env.dnsOk
    · rcases h with h | h
      · have hct := create_audit_first_ok env.createRespond none h 3 (by omega)
        simp [run_system_scan, hd, hct]
      · have hct := create_audit_first_ok env.createRespond (some "") h 3 (by omega)
        simp [run_system_scan, hd, hct]
    · simp [run_system_scan, hd]

/-- Witness for C9: a 2xx create response with body missing auditId. -/
theorem createAudit_requires_nonempty_id_witness :
    (run_system_scan ⟨true, fun _ => CreateOutcome.okBody none, UploadOutcome.okResp⟩
      false).uploadPayloadAuditIds = [] ∧
    (run_system_scan ⟨true, fun _ => CreateOutcome.okBody none, UploadOutcome.okResp⟩
      false).result = none :=
  createAudit_requires_nonempty_id
    ⟨true, fun _ => CreateOutcome.okBody none, UploadOutcome.okResp⟩ false (Or.inl rfl)

theorem appendIfaceAddrs_nodup (l : List IfaceAddr) :
    ∀ acc : List String, acc.Nodup → (appendIfaceAddrs l acc).Nodup := by
  induction l with
  | nil => intro acc h; exact h
  | cons a rest ih =>
    intro acc h
    simp only [appendIfaceAddrs]
    split
    · next hcond =>
      apply ih
      rw [List.nodup_append]
      refine ⟨h, List.nodup_singleton _, ?_⟩
      intro x hx hmem
      simp only [List.mem_singleton] at hmem
      subst hmem
      exact hcond.2 hx
    · exact ih acc h

theorem appendIfaceAddrs_head (l : List IfaceAddr) :
    ∀ (a : String) (t : List String),
      (appendIfaceAddrs l (a :: t)).head? = some a := by
  induction l with
  | nil => intro a t; rfl
  | cons x rest ih =>
    intro a t
    simp only [appendIfaceAddrs]
    split
    · rw [List.cons_append]; exact ih a (t ++ [x.address])
    · exact ih a t

/-- C7: the ipAddresses sequence of get_network_info has no duplicates even
under repeated interface reporting, and when hostname resolution succeeds
its address is the first element. -/
theorem networkInfo_invariants (hostname : String) (resolved : Option String)
    (ps : Bool) (addrs : List IfaceAddr) :
    (get_network_info hostname resolved ps addrs).ipAddresses.Nodup ∧
    (∀ ip, resolved = some ip →
      (get_network_info hostname resolved ps addrs).ipAddresses.head? = some ip) := by
  constructor
  · cases resolved with
    | none =>
      cases ps with
      | false => exact List.nodup_nil
      | true => exact appendIfaceAddrs_nodup addrs [] List.nodup_nil
    | some ip =>
      cases ps with
      | false => exact List.nodup_singleton ip
      | true => exact appendIfaceAddrs_nodup addrs [ip] (List.nodup_singleton ip)
  · intro ip hip
    subst hip
    cases ps with
    | false => rfl
    | true => exact appendIfaceAddrs_head addrs ip []

/-- Witness for C7: the same interface address reported twice plus the
already-resolved address and a non-AF_INET entry. -/
theorem networkInfo_invariants_witness :
    (get_network_info "host" (some "10.0.0.1") true
      [⟨true, "10.0.0.2"⟩, ⟨true, "10.0.0.1"⟩, ⟨true, "10.0.0.2"⟩,
        ⟨false, "fe80"⟩]).ipAddresses.Nodup ∧
    (get_network_info "host" (some "10.0.0.1") true
      [⟨true, "10.0.0.2"⟩, ⟨true, "10.0.0.1"⟩, ⟨true, "10.0.0.2"⟩,
        ⟨false, "fe80"⟩]).ipAddresses.head? = some "10.0.0.1" := by
  have h := networkInfo_invariants "host" (some "10.0.0.1") true
    [⟨true, "10.0.0.2"⟩, ⟨true, "10.0.0.1"⟩, ⟨true, "10.0.0.2"⟩, ⟨false, "fe80"⟩]
  exact ⟨h.1, h.2 "10.0.0.1" rfl⟩

/-- C8: any probe failure makes check_disk_encryption silently yield
enabled false with no method, and the dict it returns carries no status
text at all, whereas the status-carrying detectors (firewall and endpoint
protection) always attach a non-empty status message under probe failure. -/
theorem diskEncryption_silent_failure (p : Platform) (denv : DiskEnv)
    (fenv : FirewallEnv) (aenv : AntivirusEnv)
    (hd1 : denv.manageBde = ProbeResult.failure)
    (hd2 : denv.fdesetup = ProbeResult.failure)
    (hd3 : denv.lsblk = ProbeResult.failure)
    (hf1 : fenv.netshOut = ProbeResult.failure)
    (hf2 : fenv.socketfilterfwOut = ProbeResult.failure)
    (hf3 : fenv.ufwOut = ProbeResult.failure)
    (hf4 : fenv.iptablesOut = ProbeResult.failure)
    (ha1 : aenv.defenderDisabled = none)
    (ha2 : ∀ tool, aenv.which tool = false) :
    check_disk_encryption p denv = ⟨false, none⟩ ∧
    (check_disk_encryption p denv).fields = [("diskEncryptionEnabled", JVal.b false)] ∧
    (check_firewall_status p fenv).firewallStatus ≠ "" ∧
    (check_antivirus_status p aenv).antivirusStatus ≠ "" := by
  have hdisk : check_disk_encryption p denv = ⟨false, none⟩ := by
    cases p <;> simp [check_disk_encryption, hd1, hd2, hd3]
  refine ⟨hdisk, by rw [hdisk]; rfl, ?_, ?_⟩
  · cases p <;> simp [check_firewall_status, hf1, hf2, hf3, hf4]
  · cases p <;> simp [check_antivirus_status, avTools, ha1, ha2]

/-- Witness for C8 with every probe failing. -/
theorem diskEncryption_silent_failure_witness :
    check_disk_encryption Platform.linux ⟨.failure, .failure, .failure⟩ = ⟨false, none⟩ ∧
    (check_disk_encryption Platform.linux ⟨.failure, .failure, .failure⟩).fields =
      [("diskEncryptionEnabled", JVal.b false)] ∧
    (check_firewall_status Platform.linux
      ⟨.failure, .failure, .failure, .failure⟩).firewallStatus ≠ "" ∧
    (check_antivirus_status Platform.linux ⟨none, fun _ => false⟩).antivirusStatus ≠ "" :=
  diskEncryption_silent_failure Platform.linux ⟨.failure, .failure, .failure⟩
    ⟨.failure, .failure, .failure, .failure⟩ ⟨none, fun _ => false⟩
    rfl rfl rfl rfl rfl rfl rfl rfl (fun _ => rfl)

/-- C2 counterexample: on a probe-failure environment the disk-encryption
detector returns a dict with no string-valued entry at all, so no
human-readable status message accompanies the degraded result, contrary to
the claim that every detector attaches one. -/
theorem detector_status_missing_counterexample :
    check_disk_encryption Platform.linux ⟨.failure, .failure, .failure⟩ = ⟨false, none⟩ ∧
    ((check_disk_encryption Platform.linux ⟨.failure, .failure, .failure⟩).fields.all
      (fun kv => match kv.2 with | JVal.s _ => false | JVal.b _ => true)) = true := by
  decide

/-- C2 amended: on every platform, when the underlying probes fail every
detector still returns a degraded result: the firewall detector reports
disabled with a non-empty status message, endpoint protection reports a
non-empty status message, disk encryption reports enabled false with no
method (and no status text), local accounts falls back to the single
current user, and network identity returns the bare hostname with an empty
address list. -/
theorem detectors_degrade_on_failure (p : Platform) (fenv : FirewallEnv)
    (aenv : AntivirusEnv) (denv : DiskEnv) (uenv : UsersEnv)
    (hostname : String) (ps : Bool)
    (hf1 : fenv.netshOut = ProbeResult.failure)
    (hf2 : fenv.socketfilterfwOut = ProbeResult.failure)
    (hf3 : fenv.ufwOut = ProbeResult.failure)
    (hf4 : fenv.iptablesOut = ProbeResult.failure)
    (ha1 : aenv.defenderDisabled = none)
    (ha2 : ∀ tool, aenv.which tool = false)
    (hd1 : denv.manageBde = ProbeResult.failure)
    (hd2 : denv.fdesetup = ProbeResult.failure)
    (hd3 : denv.lsblk = ProbeResult.failure)
    (hu1 : uenv.wmicOut = ProbeResult.failure)
    (hu2 : uenv.netUserOut = ProbeResult.failure)
    (hu3 : uenv.passwd = none) :
    (check_firewall_status p fenv).firewallEnabled = false ∧
    (check_firewall_status p fenv).firewallStatus ≠ "" ∧
    (check_antivirus_status p aenv).antivirusStatus ≠ "" ∧
    check_disk_encryption p denv = ⟨false, none⟩ ∧
    get_user_accounts p uenv = [⟨uenv.currentUser, true, some uenv.nowIso⟩] ∧
    (get_network_info hostname none ps []).ipAddresses = [] := by
  have hcol : collect_users p uenv = [] := by
    cases p <;> simp [collect_users, hu1, hu2, hu3]
  refine ⟨?_, ?_, ?_, ?_, ?_, ?_⟩
  · cases p <;> simp [check_firewall_status, hf1, hf2, hf3, hf4]
  · cases p <;> simp [check_firewall_status, hf1, hf2, hf3, hf4]
  · cases p <;> simp [check_antivirus_status, avTools, ha1, ha2]
  · cases p <;> simp [check_disk_encryption, hd1, hd2, hd3]
  · simp [get_user_accounts, hcol]
  · cases ps <;> rfl

/-- Witness for the amended C2 on Linux with every probe failing. -/
theorem detectors_degrade_on_failure_witness :
    (check_firewall_status Platform.linux
      ⟨.failure, .failure, .failure, .failure⟩).firewallEnabled = false ∧
    (check_firewall_status Platform.linux
      ⟨.failure, .failure, .failure, .failure⟩).firewallStatus ≠ "" ∧
    (check_antivirus_status Platform.linux ⟨none, fun _ => false⟩).antivirusStatus ≠ "" ∧
    check_disk_encryption Platform.linux ⟨.failure, .failure, .failure⟩ = ⟨false, none⟩ ∧
    get_user_accounts Platform.linux ⟨.failure, .failure, .failure, none, "me", "t0"⟩ =
      [⟨"me", true, some "t0"⟩] ∧
    (get_network_info "host" none false []).ipAddresses = [] :=
  detectors_degrade_on_failure Platform.linux ⟨.failure, .failure, .failure, .failure⟩
    ⟨none, fun _ => false⟩ ⟨.failure, .failure, .failure⟩
    ⟨.failure, .failure, .failure, none, "me", "t0"⟩ "host" false
    rfl rfl rfl rfl rfl (fun _ => rfl) rfl rfl rfl rfl rfl rfl

theorem parsePasswd_stops_at_malformed (bad : String) (hbad : passwdStep bad = none) :
    ∀ (pre post : List String) (acc : List UserAccount),
      parsePasswdLines (pre ++ bad :: post) acc = parsePasswdLines pre acc := by
  intro pre
  induction pre with
  | nil =>
    intro post acc
    simp only [List.nil_append, parsePasswdLines, hbad]
  | cons l rest ih =>
    intro post acc
    rw [List.cons_append]
    show parsePasswdLines (l :: (rest ++ bad :: post)) acc = parsePasswdLines (l :: rest) acc
    simp only [parsePasswdLines]
    cases passwdStep l with
    | none => rfl
    | some o =>
      cases o with
      | none => exact ih post acc
      | some u => exact ih post (acc ++ [u])

/-- C10: when /etc/passwd contains a malformed line (at least seven colon
fields with a non-integer uid field) after at least one parsed account, the
Unix branch of get_user_accounts returns exactly the accounts parsed before
the malformed line, silently drops every later line, and does not trigger
the current-user fallback. -/
theorem unix_malformed_line_truncates (env : UsersEnv) (content : String)
    (pre post : List String) (bad : String)
    (hp : env.passwd = some content)
    (hsplit : pySplitChar content '\n' = pre ++ bad :: post)
    (hbad : passwdStep bad = none)
    (hne : parsePasswdLines pre [] ≠ []) :
    collect_users Platform.linux env = parsePasswdLines pre [] ∧
    get_user_accounts Platform.linux env = parsePasswdLines pre [] := by
  have hcol : collect_users Platform.linux env = parsePasswdLines pre [] := by
    simp only [collect_users, hp]
    rw [hsplit, parsePasswd_stops_at_malformed bad hbad pre post []]
  exact ⟨hcol, by simp [get_user_accounts, hcol, hne]⟩

/-- Witness for C10: a valid root line, then a line whose uid field is not
an integer, then a line that would otherwise be included. -/
theorem unix_malformed_line_truncates_witness :
    collect_users Platform.linux
      ⟨.failure, .failure, .failure,
        some "root:x:0:0:root:/root:/bin/bash\nbadline:x:notanum:0:::/bin/bash\nalice:x:1000:1000::/home/alice:/bin/bash",
        "me", "t0"⟩ =
      parsePasswdLines ["root:x:0:0:root:/root:/bin/bash"] [] ∧
    get_user_accounts Platform.linux
      ⟨.failure, .failure, .failure,
        some "root:x:0:0:root:/root:/bin/bash\nbadline:x:notanum:0:::/bin/bash\nalice:x:1000:1000::/home/alice:/bin/bash",
        "me", "t0"⟩ =
      parsePasswdLines ["root:x:0:0:root:/root:/bin/bash"] [] :=
  unix_malformed_line_truncates
    ⟨.failure, .failure, .failure,
      some "root:x:0:0:root:/root:/bin/bash\nbadline:x:notanum:0:::/bin/bash\nalice:x:1000:1000::/home/alice:/bin/bash",
      "me", "t0"⟩
    "root:x:0:0:root:/root:/bin/bash\nbadline:x:notanum:0:::/bin/bash\nalice:x:1000:1000::/home/alice:/bin/bash"
    ["root:x:0:0:root:/root:/bin/bash"]
    ["alice:x:1000:1000::/home/alice:/bin/bash"]
    "badline:x:notanum:0:::/bin/bash"
    rfl (by decide) (by decide) (by decide)
